import Mathlib

/-
Verification of the Runtime Lifecycle Coordinator of the Dolphin libretro
adapter.  The definitions below are a shallow embedding of the relevant
parts of:

  Source/Core/DolphinLibretro/libretro.cpp
  Source/Core/AudioCommon/LibretroSoundStream.cpp
  Source/Core/Common/GL/GLInterface/Libretro.cpp / .h

External collaborators (the emulation core, the configuration store and
the host runtime) are modelled by oracle parameters; machine integers are
modelled by Int/Nat, with C truncating division written `Int.tdiv`.
-/

namespace DolphinLibretro

/-! ## Audio volume pass (LibretroSoundStream.cpp) -/

/-- Embedding of `ApplyVolume` (LibretroSoundStream.cpp lines 22-26):
scale a signed 16-bit sample by `volume/100` using C integer division
(truncation toward zero), then `std::clamp` the result to the 16-bit
signed range. -/
def ApplyVolume (sample : Int) (volume : Int) : Int :=
  let scaled := Int.tdiv (sample * volume) 100
  max (-32768) (min scaled 32767)

/-- Embedding of the volume pass of `LibretroSoundStream::SoundLoop`
(lines 109-115): when the loaded volume is not 100 every sample of the
mixed block goes through `ApplyVolume`; at volume 100 the whole pass is
skipped. -/
def soundLoopVolumePass (volume : Int) (buffer : List Int) : List Int :=
  if volume ≠ 100 then buffer.map (fun s => ApplyVolume s volume) else buffer

/-! ## Coordinator data model (libretro.cpp statics) -/

/-- Embedding of the `PendingBoot` record (libretro.cpp lines 139-144).
`BootSessionData` is opaque to the coordinator, so the optional session
payload is modelled by an abstract tag. -/
structure PendingBoot where
  path : String
  session : Option Nat
  is_netplay : Bool
deriving DecidableEq, Repr

/-- Embedding of `LibretroGLCallbacks` (GLInterface/Libretro.h lines
11-26).  Each function pointer is modelled by whether it is non-null; the
present callback, when non-null, is always `PresentFrame`.  Native
handles are likewise modelled by whether they are non-null/non-zero. -/
structure LibretroGLCallbacks where
  get_proc_address : Bool
  get_current_framebuffer : Bool
  present : Bool
  base_width : Nat
  base_height : Nat
  is_gles : Bool
  native_display : Bool
  native_context : Bool
  native_drawable : Bool
deriving DecidableEq, Repr

/-- The value-initialized descriptor `LibretroGLCallbacks{}`: every
pointer null, geometry zero. -/
def LibretroGLCallbacks.empty : LibretroGLCallbacks :=
  { get_proc_address := false
    get_current_framebuffer := false
    present := false
    base_width := 0
    base_height := 0
    is_gles := false
    native_display := false
    native_context := false
    native_drawable := false }

/-- The coordinator state: the file-scope statics of libretro.cpp that
the lifecycle claims are about.  `video_refresh` models whether the
host's `s_video_refresh` callback pointer is non-null, `netplay_active`
whether `s_netplay_client` or `s_netplay_server` exists. -/
structure AdapterState where
  stop_requested : Bool
  game_loaded : Bool
  hw_render_enabled : Bool
  hw_context_ready : Bool
  video_refresh : Bool
  netplay_active : Bool
  netplay_start_requested : Bool
  pending_boot : Option PendingBoot
  pending_present : Bool
  present_width : Nat
  present_height : Nat
  gl_callbacks : LibretroGLCallbacks
deriving DecidableEq, Repr

/-! ## Context lifecycle gate -/

/-- What the host and the underlying GL report at context-reset time:
the frontend-filled members of `s_hw_callback` and the current native
handles.  These feed `UpdateLibretroGLCallbacks`. -/
structure HWContextEnv where
  get_proc_address : Bool
  get_current_framebuffer : Bool
  is_gles : Bool
  native_display : Bool
  native_context : Bool
  native_drawable : Bool
deriving DecidableEq, Repr

/-- Embedding of `UpdateLibretroGLCallbacks` (libretro.cpp lines
760-781): rebuild the capability descriptor wholesale, with the present
callback pointing at `PresentFrame` (hence non-null) and the fixed base
geometry 640x528. -/
def UpdateLibretroGLCallbacks (env : HWContextEnv) : LibretroGLCallbacks :=
  { get_proc_address := env.get_proc_address
    get_current_framebuffer := env.get_current_framebuffer
    present := true
    base_width := 640
    base_height := 528
    is_gles := env.is_gles
    native_display := env.native_display
    native_context := env.native_context
    native_drawable := env.native_drawable }

/-- Embedding of `OnHWContextReset` (libretro.cpp lines 783-787): flag
the context ready, then rebuild the GL callback descriptor. -/
def OnHWContextReset (env : HWContextEnv) (s : AdapterState) : AdapterState :=
  { s with hw_context_ready := true, gl_callbacks := UpdateLibretroGLCallbacks env }

/-- Embedding of `OnHWContextDestroy` (libretro.cpp lines 789-793):
clear the readiness flag and install the empty descriptor. -/
def OnHWContextDestroy (s : AdapterState) : AdapterState :=
  { s with hw_context_ready := false, gl_callbacks := LibretroGLCallbacks.empty }

/-- One host-issued context notification. -/
inductive CtxEvent
  | reset (env : HWContextEnv)
  | destroy
deriving DecidableEq, Repr

/-- Whether a context notification is a reset. -/
def CtxEvent.isReset : CtxEvent → Bool
  | .reset _ => true
  | .destroy => false

/-- Dispatch of one context notification. -/
def applyCtxEvent (s : AdapterState) : CtxEvent → AdapterState
  | .reset env => OnHWContextReset env s
  | .destroy => OnHWContextDestroy s

/-- A whole sequence of context notifications, first element first. -/
def runCtxEvents (s : AdapterState) (es : List CtxEvent) : AdapterState :=
  es.foldl applyCtxEvent s

/-! ## Deferred boot queue and presentation handoff -/

/-- Embedding of `DeferBoot` (libretro.cpp lines 860-867): store the
request as the pending boot record, overwriting any previous one. -/
def DeferBoot (path : String) (session : Option Nat) (is_netplay : Bool)
    (s : AdapterState) : AdapterState :=
  { s with pending_boot := some { path := path, session := session, is_netplay := is_netplay } }

/-- Embedding of `PresentFrame` (libretro.cpp lines 753-758): record the
frame geometry, then raise the pending-present flag. -/
def PresentFrame (width height : Nat) (s : AdapterState) : AdapterState :=
  { s with present_width := width, present_height := height, pending_present := true }

/-- A stop notification (`LibretroNetPlayUI::StopGame`, libretro.cpp
line 466, and every other source of `s_stop_requested.store(true)`). -/
def RequestStop (s : AdapterState) : AdapterState :=
  { s with stop_requested := true }

/-! ## Tick coordinator (`retro_run`, libretro.cpp lines 2117-2155) -/

/-- Observable calls the coordinator makes into the emulation core and
the host, in program order. -/
inductive Effect
  | stopCore
  | bootAttempt (path : String) (session : Option Nat) (is_netplay : Bool)
  | applyCheats
  | dispatchJobs
  | videoRefreshHW (width height : Nat)
  | videoRefreshDummy (width height : Nat)
deriving DecidableEq, Repr

/-- Embedding of `StopCore` (libretro.cpp lines 745-751) together with
the state-changed hook installed by `BootGameInternal` (lines 840-846):
`Core::Shutdown` always leaves the core Uninitialized, upon which the
hook clears `s_game_loaded` (and if no boot ever ran, the flag is false
already).  The guard on `Core::IsUninitialized` makes the call safe with
no core running; in the embedding `StopCore` is total. -/
def StopCore (s : AdapterState) : AdapterState × List Effect :=
  ({ s with game_loaded := false }, [Effect.stopCore])

/-- Outcomes of the external collaborators consulted during one tick:
whether the host reported changed core options, what the
`dolphin_netplay_mode` option currently reads, and how the two stages of
a boot attempt turn out. -/
structure TickEnv where
  options_updated : Bool
  netplay_mode_disabled : Bool
  boot_params_valid : Bool
  boot_core_ok : Bool
deriving DecidableEq, Repr

/-- Embedding of `BootGameInternal` (libretro.cpp lines 828-858): build
boot parameters (fails when `BootParameters::GenerateFromFile` yields
nothing), run `BootManager::BootCore`; on success set `s_game_loaded`
and reapply the registered cheats.  Returns the new state, the boolean
result, and the observable calls; the `bootAttempt` effect marks the
entry into the function.  The state-changed-hook registration between
the two stages touches no modelled field. -/
def BootGameInternal (env : TickEnv) (path : String) (session : Option Nat)
    (is_netplay : Bool) (s : AdapterState) : AdapterState × Bool × List Effect :=
  if !env.boot_params_valid then
    (s, false, [Effect.bootAttempt path session is_netplay])
  else if !env.boot_core_ok then
    (s, false, [Effect.bootAttempt path session is_netplay])
  else
    ({ s with game_loaded := true }, true,
      [Effect.bootAttempt path session is_netplay, Effect.applyCheats])

/-- Embedding of `UpdateNetPlayOptions` (libretro.cpp lines 1567-1604)
restricted to the modelled fields: when the mode option reads
"disabled" while a NetPlay session object exists, a running game turns
into a stop request, otherwise `ShutdownNetPlay` (lines 1420-1434) tears
the session down and clears the latched start request.  The option
applications and the room refresh touch only the configuration store. -/
def UpdateNetPlayOptions (env : TickEnv) (s : AdapterState) : AdapterState :=
  if env.netplay_mode_disabled && s.netplay_active then
    if s.game_loaded then { s with stop_requested := true }
    else { s with netplay_active := false, netplay_start_requested := false }
  else s

/-- Embedding of `UpdateCoreOptions` (libretro.cpp lines 1606-1617): the
option handlers run only when the host reports changed variables;
`ApplyCoreOptions` touches only the configuration store, so of the
modelled state only `UpdateNetPlayOptions` matters. -/
def UpdateCoreOptions (env : TickEnv) (s : AdapterState) : AdapterState :=
  if env.options_updated then UpdateNetPlayOptions env s else s

/-- Steps 1-5 of `retro_run` (libretro.cpp lines 2119-2134): option
processing, input poll (touches no modelled state), the
`s_stop_requested.exchange(false)` drain that calls `StopCore`, NetPlay
teardown when the mode reads disabled with no game loaded, and the
latched NetPlay start (whose `StartNetPlayGame` only sends a network
message, touching no modelled state). -/
def tickPrelude (env : TickEnv) (s : AdapterState) : AdapterState × List Effect :=
  let s1 := UpdateCoreOptions env s
  let r2 : AdapterState × List Effect :=
    if s1.stop_requested then StopCore { s1 with stop_requested := false } else (s1, [])
  let s3 :=
    if !r2.1.game_loaded && env.netplay_mode_disabled && r2.1.netplay_active then
      { r2.1 with netplay_active := false, netplay_start_requested := false }
    else r2.1
  let s4 :=
    if s3.netplay_start_requested then { s3 with netplay_start_requested := false } else s3
  (s4, r2.2)

/-- Step 6 of `retro_run` (libretro.cpp lines 2136-2141): the
deferred-boot replay.  The pending record is moved out and cleared
before `BootGameInternal` runs. -/
def tickBoot (env : TickEnv) (s : AdapterState) : AdapterState × List Effect :=
  match s.pending_boot with
  | some p =>
    if !s.game_loaded && s.hw_context_ready then
      let r := BootGameInternal env p.path p.session p.is_netplay
        { s with pending_boot := none }
      (r.1, r.2.2)
    else (s, [])
  | none => (s, [])

/-- The dummy-frame geometry `kDummyWidth`/`kDummyHeight` (libretro.cpp
lines 167-168). -/
def kDummyWidth : Nat := 1

/-- See `kDummyWidth`. -/
def kDummyHeight : Nat := 1

/-- Embedding of `SubmitDummyFrame` (libretro.cpp lines 820-826): with a
registered video-refresh callback, submit the 1x1 placeholder buffer. -/
def SubmitDummyFrame (s : AdapterState) : List Effect :=
  if s.video_refresh then [Effect.videoRefreshDummy kDummyWidth kDummyHeight] else []

/-- Steps 7-9 of `retro_run` (libretro.cpp lines 2143-2154): pump the
core's job queue while a game is loaded, drain the pending present (the
`exchange(false)` clears the flag even with no video callback; the frame
is submitted only when `s_video_refresh` is set), and submit the dummy
frame when no game is loaded or hardware rendering is off. -/
def tickTail (s : AdapterState) : AdapterState × List Effect :=
  let effJobs : List Effect := if s.game_loaded then [Effect.dispatchJobs] else []
  let r : AdapterState × List Effect :=
    if s.pending_present then
      if s.video_refresh then
        ({ s with pending_present := false },
          [Effect.videoRefreshHW s.present_width s.present_height])
      else ({ s with pending_present := false }, [])
    else (s, [])
  let effDummy : List Effect :=
    if !r.1.game_loaded || !r.1.hw_render_enabled then SubmitDummyFrame r.1 else []
  (r.1, effJobs ++ r.2 ++ effDummy)

/-- Embedding of `retro_run` (libretro.cpp lines 2117-2155) as the
composition of its three phases. -/
def retro_run (env : TickEnv) (s : AdapterState) : AdapterState × List Effect :=
  let r1 := tickPrelude env s
  let r2 := tickBoot env r1.1
  let r3 := tickTail r2.1
  (r3.1, r1.2 ++ r2.2 ++ r3.2)

/-- The deferred-boot guard of libretro.cpp line 2136, evaluated on the
state the tick has reached when the check runs (after the tick's
prelude). -/
def bootEligible (env : TickEnv) (s : AdapterState) : Bool :=
  !(tickPrelude env s).1.game_loaded && (tickPrelude env s).1.hw_context_ready

/-! ## Host-driven runs -/

/-- One host-driven step: a context notification, one tick, a stop
notification, or the renderer's present callback. -/
inductive HostStep
  | ctx (e : CtxEvent)
  | tick (env : TickEnv)
  | notifyStop
  | presentFrame (width height : Nat)
deriving DecidableEq, Repr

/-- Whether a host step is a context-reset notification. -/
def HostStep.isCtxReset : HostStep → Bool
  | .ctx (.reset _) => true
  | _ => false

/-- Dispatch of one host-driven step. -/
def applyHostStep (s : AdapterState) : HostStep → AdapterState × List Effect
  | .ctx e => (applyCtxEvent s e, [])
  | .tick env => retro_run env s
  | .notifyStop => (RequestStop s, [])
  | .presentFrame w h => (PresentFrame w h s, [])

/-- A whole host-driven run, accumulating the observable effects. -/
def runHostSteps (s : AdapterState) : List HostStep → AdapterState × List Effect
  | [] => (s, [])
  | step :: rest =>
    let r1 := applyHostStep s step
    let r2 := runHostSteps r1.1 rest
    (r2.1, r1.2 ++ r2.2)

/-- How many times a run calls `BootGameInternal` with the given pending
record's parameters. -/
def bootAttemptsFor (p : PendingBoot) (effs : List Effect) : Nat :=
  effs.count (Effect.bootAttempt p.path p.session p.is_netplay)

/-- How many times a run calls `StopCore`. -/
def stopCalls (effs : List Effect) : Nat :=
  effs.count Effect.stopCore

/-- Whether an effect is a hardware-frame submission
(`s_video_refresh(RETRO_HW_FRAME_BUFFER_VALID, w, h, 0)`). -/
def Effect.isHWFrame : Effect → Bool
  | .videoRefreshHW _ _ => true
  | _ => false

/-- The hardware-frame submissions of a run, in order. -/
def hwFrames (effs : List Effect) : List Effect :=
  effs.filter Effect.isHWFrame

/-- Whether an effect is a dummy-frame submission. -/
def Effect.isDummyFrame : Effect → Bool
  | .videoRefreshDummy _ _ => true
  | _ => false

/-- The dummy-frame submissions of a run, in order. -/
def dummyFrames (effs : List Effect) : List Effect :=
  effs.filter Effect.isDummyFrame

/-! ## Save states (`retro_serialize`, libretro.cpp lines 2174-2188) -/

/-- Embedding of `retro_serialize`: `game_loaded` is `s_game_loaded`,
`data_non_null` models the destination pointer, `saved` is the buffer
`State::SaveToBuffer` freshly produces for the current core (an external
collaborator), and `size` is the destination capacity.  The result pairs
the returned boolean with what was written into the destination
(`none` = the destination was not touched). -/
def retro_serialize (game_loaded : Bool) (data_non_null : Bool)
    (saved : List Nat) (size : Nat) : Bool × Option (List Nat) :=
  if !game_loaded || !data_non_null then (false, none)
  else if saved.isEmpty || size < saved.length then (false, none)
  else (true, some saved)

/-! ## GL context swap (GLInterface/Libretro.cpp) -/

/-- The backbuffer-relevant fields of `GLContextLibretro`. -/
structure GLContextLibretro where
  backbuffer_width : Int
  backbuffer_height : Int
deriving DecidableEq, Repr

/-- Embedding of `GLContextLibretro::UpdateBackbuffer` (lines 376-394):
with no resolver the function returns at once; otherwise the viewport is
queried through the resolved `glGetIntegerv` (`vp` models its answer,
`none` standing for an unresolvable pointer) and only strictly positive
dimensions are taken. -/
def UpdateBackbuffer (cb : LibretroGLCallbacks) (vp : Option (Int × Int))
    (ctx : GLContextLibretro) : GLContextLibretro :=
  if !cb.get_proc_address then ctx
  else
    match vp with
    | none => ctx
    | some (w, h) =>
      if 0 < w ∧ 0 < h then { backbuffer_width := w, backbuffer_height := h }
      else ctx

/-- Embedding of `GLContextLibretro::Swap` (lines 401-407): refresh the
backbuffer size, then invoke the present callback when it is non-null.
The second component is the present invocation the swap performed
(its width and height), `none` when no present call happened. -/
def Swap (cb : LibretroGLCallbacks) (vp : Option (Int × Int))
    (ctx : GLContextLibretro) : GLContextLibretro × Option (Int × Int) :=
  let ctx2 := UpdateBackbuffer cb vp ctx
  (ctx2, if cb.present then some (ctx2.backbuffer_width, ctx2.backbuffer_height) else none)

/-! ## Helper lemmas -/

/-- Folding one more context event. -/
lemma runCtxEvents_concat (s : AdapterState) (es : List CtxEvent) (e : CtxEvent) :
    runCtxEvents s (es ++ [e]) = applyCtxEvent (runCtxEvents s es) e := by
  simp [runCtxEvents, List.foldl_append]

/-- The option-processing phase touches only the stop-request and
NetPlay cells. -/
lemma UpdateCoreOptions_preserve (env : TickEnv) (s : AdapterState) :
    (UpdateCoreOptions env s).pending_boot = s.pending_boot ∧
    (UpdateCoreOptions env s).game_loaded = s.game_loaded ∧
    (UpdateCoreOptions env s).hw_context_ready = s.hw_context_ready ∧
    (UpdateCoreOptions env s).video_refresh = s.video_refresh ∧
    (UpdateCoreOptions env s).hw_render_enabled = s.hw_render_enabled ∧
    (UpdateCoreOptions env s).pending_present = s.pending_present ∧
    (UpdateCoreOptions env s).present_width = s.present_width ∧
    (UpdateCoreOptions env s).present_height = s.present_height ∧
    (UpdateCoreOptions env s).gl_callbacks = s.gl_callbacks := by
  unfold UpdateCoreOptions UpdateNetPlayOptions
  split_ifs <;> simp

/-- Option processing never clears an already-raised stop request. -/
lemma UpdateCoreOptions_stop_mono (env : TickEnv) (s : AdapterState)
    (h : s.stop_requested = true) : (UpdateCoreOptions env s).stop_requested = true := by
  unfold UpdateCoreOptions UpdateNetPlayOptions
  split_ifs <;> simp [h]

/-- Full characterization of the tick prelude (steps 1-5): the stop
request is always drained, the boot/present cells and the context flags
pass through untouched, the running flag survives exactly when no stop
was pending after option processing, and the only effect is the
`StopCore` call paired with a drained request. -/
lemma tickPrelude_spec (env : TickEnv) (s : AdapterState) :
    (tickPrelude env s).1.stop_requested = false ∧
    (tickPrelude env s).1.pending_boot = s.pending_boot ∧
    (tickPrelude env s).1.hw_context_ready = s.hw_context_ready ∧
    (tickPrelude env s).1.video_refresh = s.video_refresh ∧
    (tickPrelude env s).1.hw_render_enabled = s.hw_render_enabled ∧
    (tickPrelude env s).1.pending_present = s.pending_present ∧
    (tickPrelude env s).1.present_width = s.present_width ∧
    (tickPrelude env s).1.present_height = s.present_height ∧
    (tickPrelude env s).1.gl_callbacks = s.gl_callbacks ∧
    (tickPrelude env s).1.game_loaded =
      (!(UpdateCoreOptions env s).stop_requested && s.game_loaded) ∧
    (tickPrelude env s).2 =
      (if (UpdateCoreOptions env s).stop_requested then [Effect.stopCore] else []) := by
  have hU := UpdateCoreOptions_preserve env s
  simp only [tickPrelude, StopCore]
  split_ifs <;> simp_all

/-- Full characterization of `BootGameInternal`: success is the
conjunction of the two external stages; on failure the state is
untouched; cheats are reapplied exactly on success; exactly one
`bootAttempt` is recorded either way. -/
lemma BootGameInternal_spec (env : TickEnv) (path : String) (sess : Option Nat)
    (np : Bool) (s : AdapterState) :
    (BootGameInternal env path sess np s).1 =
      (if env.boot_params_valid && env.boot_core_ok then
        { s with game_loaded := true } else s) ∧
    (BootGameInternal env path sess np s).2.1 =
      (env.boot_params_valid && env.boot_core_ok) ∧
    (BootGameInternal env path sess np s).2.2 =
      (if env.boot_params_valid && env.boot_core_ok then
        [Effect.bootAttempt path sess np, Effect.applyCheats]
      else [Effect.bootAttempt path sess np]) := by
  cases hp : env.boot_params_valid <;> cases hc : env.boot_core_ok <;>
    simp [BootGameInternal, hp, hc]

/-- The deferred-boot phase with no pending record is inert. -/
lemma tickBoot_none (env : TickEnv) (s : AdapterState)
    (h : s.pending_boot = none) : tickBoot env s = (s, []) := by
  simp [tickBoot, h]

/-- The deferred-boot phase with a pending record but a failing guard is
inert. -/
lemma tickBoot_blocked (env : TickEnv) (s : AdapterState) (p : PendingBoot)
    (h : s.pending_boot = some p)
    (hg : (!s.game_loaded && s.hw_context_ready) = false) : tickBoot env s = (s, []) := by
  simp [tickBoot, h, hg]

/-- The deferred-boot phase with a pending record and a passing guard:
the record is cleared first, then `BootGameInternal` runs on it. -/
lemma tickBoot_serviced (env : TickEnv) (s : AdapterState) (p : PendingBoot)
    (h : s.pending_boot = some p)
    (hg : (!s.game_loaded && s.hw_context_ready) = true) :
    tickBoot env s =
      ((BootGameInternal env p.path p.session p.is_netplay
          { s with pending_boot := none }).1,
        (BootGameInternal env p.path p.session p.is_netplay
          { s with pending_boot := none }).2.2) := by
  simp [tickBoot, h, hg]

/-- Fields of the tick tail (steps 7-9): the pending present is always
cleared and every other modelled field passes through. -/
lemma tickTail_state (s : AdapterState) :
    (tickTail s).1.pending_present = false ∧
    (tickTail s).1.game_loaded = s.game_loaded ∧
    (tickTail s).1.stop_requested = s.stop_requested ∧
    (tickTail s).1.pending_boot = s.pending_boot ∧
    (tickTail s).1.gl_callbacks = s.gl_callbacks ∧
    (tickTail s).1.hw_render_enabled = s.hw_render_enabled ∧
    (tickTail s).1.hw_context_ready = s.hw_context_ready ∧
    (tickTail s).1.video_refresh = s.video_refresh := by
  cases hpp : s.pending_present <;> cases hvr : s.video_refresh <;>
    simp [tickTail, hpp, hvr]

/-- Effects of the tick tail: the job pump while running, the drained
hardware frame when one was pending and a video callback exists, and the
dummy frame when not running or not hardware-rendered. -/
lemma tickTail_effects (s : AdapterState) :
    (tickTail s).2 =
      (if s.game_loaded then [Effect.dispatchJobs] else []) ++
      (if s.pending_present && s.video_refresh then
        [Effect.videoRefreshHW s.present_width s.present_height] else []) ++
      (if (!s.game_loaded || !s.hw_render_enabled) && s.video_refresh then
        [Effect.videoRefreshDummy kDummyWidth kDummyHeight] else []) := by
  cases hpp : s.pending_present <;> cases hvr : s.video_refresh <;>
    cases hgl : s.game_loaded <;> cases hhw : s.hw_render_enabled <;>
      simp [tickTail, SubmitDummyFrame, hpp, hvr, hgl, hhw]

/-- The tick as the composition of its three phases. -/
lemma retro_run_eq (env : TickEnv) (s : AdapterState) :
    retro_run env s =
      ((tickTail (tickBoot env (tickPrelude env s).1).1).1,
        (tickPrelude env s).2 ++ (tickBoot env (tickPrelude env s).1).2 ++
          (tickTail (tickBoot env (tickPrelude env s).1).1).2) := rfl

/-- Fields of the deferred-boot phase: everything except the running
flag and the pending record passes through. -/
lemma tickBoot_state (env : TickEnv) (s : AdapterState) :
    (tickBoot env s).1.stop_requested = s.stop_requested ∧
    (tickBoot env s).1.hw_context_ready = s.hw_context_ready ∧
    (tickBoot env s).1.video_refresh = s.video_refresh ∧
    (tickBoot env s).1.hw_render_enabled = s.hw_render_enabled ∧
    (tickBoot env s).1.pending_present = s.pending_present ∧
    (tickBoot env s).1.present_width = s.present_width ∧
    (tickBoot env s).1.present_height = s.present_height ∧
    (tickBoot env s).1.gl_callbacks = s.gl_callbacks := by
  rcases hpb : s.pending_boot with _ | p
  · rw [tickBoot_none env s hpb]
    exact ⟨rfl, rfl, rfl, rfl, rfl, rfl, rfl, rfl⟩
  · cases hg : (!s.game_loaded && s.hw_context_ready) with
    | false =>
      rw [tickBoot_blocked env s p hpb hg]
      exact ⟨rfl, rfl, rfl, rfl, rfl, rfl, rfl, rfl⟩
    | true =>
      rw [tickBoot_serviced env s p hpb hg]
      obtain ⟨h1, -, -⟩ :=
        BootGameInternal_spec env p.path p.session p.is_netplay { s with pending_boot := none }
      rw [h1]
      split_ifs <;> exact ⟨rfl, rfl, rfl, rfl, rfl, rfl, rfl, rfl⟩

/-- The effect list of the deferred-boot phase is empty or a single boot
attempt on the pending record, possibly followed by the cheat
reapplication. -/
lemma tickBoot_effects_shape (env : TickEnv) (s : AdapterState) :
    (tickBoot env s).2 = [] ∨
    (∃ p, s.pending_boot = some p ∧
      ((tickBoot env s).2 = [Effect.bootAttempt p.path p.session p.is_netplay] ∨
        (tickBoot env s).2 =
          [Effect.bootAttempt p.path p.session p.is_netplay, Effect.applyCheats])) := by
  rcases hpb : s.pending_boot with _ | p
  · left; rw [tickBoot_none env s hpb]
  · cases hg : (!s.game_loaded && s.hw_context_ready) with
    | false => left; rw [tickBoot_blocked env s p hpb hg]
    | true =>
      right
      refine ⟨p, rfl, ?_⟩
      rw [tickBoot_serviced env s p hpb hg]
      obtain ⟨-, -, h3⟩ :=
        BootGameInternal_spec env p.path p.session p.is_netplay { s with pending_boot := none }
      rw [h3]
      split_ifs
      · right; rfl
      · left; rfl

/-- When the deferred boot is serviced the pending record is cleared,
whatever the boot outcome. -/
lemma tickBoot_serviced_pending (env : TickEnv) (s : AdapterState) (p : PendingBoot)
    (h : s.pending_boot = some p) (hg : (!s.game_loaded && s.hw_context_ready) = true) :
    (tickBoot env s).1.pending_boot = none := by
  rw [tickBoot_serviced env s p h hg]
  obtain ⟨h1, -, -⟩ :=
    BootGameInternal_spec env p.path p.session p.is_netplay { s with pending_boot := none }
  rw [h1]
  split_ifs <;> rfl

/-- When the deferred boot is serviced the running flag afterwards is
exactly the boot outcome. -/
lemma tickBoot_serviced_loaded (env : TickEnv) (s : AdapterState) (p : PendingBoot)
    (h : s.pending_boot = some p) (hg : (!s.game_loaded && s.hw_context_ready) = true) :
    (tickBoot env s).1.game_loaded = (env.boot_params_valid && env.boot_core_ok) := by
  have hgl : s.game_loaded = false := by
    have := (Bool.and_eq_true _ _).mp hg
    simpa using this.1
  rw [tickBoot_serviced env s p h hg]
  obtain ⟨h1, -, -⟩ :=
    BootGameInternal_spec env p.path p.session p.is_netplay { s with pending_boot := none }
  rw [h1]
  split_ifs with hc
  · simp [hc]
  · simp only [Bool.not_eq_true] at hc
    rw [hc]
    exact hgl

/-- When the deferred boot is serviced exactly one boot attempt with the
pending record's parameters is recorded. -/
lemma tickBoot_serviced_count (env : TickEnv) (s : AdapterState) (p : PendingBoot)
    (h : s.pending_boot = some p) (hg : (!s.game_loaded && s.hw_context_ready) = true) :
    bootAttemptsFor p (tickBoot env s).2 = 1 := by
  rw [tickBoot_serviced env s p h hg]
  obtain ⟨-, -, h3⟩ :=
    BootGameInternal_spec env p.path p.session p.is_netplay { s with pending_boot := none }
  rw [h3]
  split_ifs <;> simp [bootAttemptsFor]

/-- Counting stop calls distributes over concatenation. -/
lemma stopCalls_append (l1 l2 : List Effect) :
    stopCalls (l1 ++ l2) = stopCalls l1 + stopCalls l2 := by
  simp [stopCalls]

/-- Counting boot attempts distributes over concatenation. -/
lemma bootAttemptsFor_append (p : PendingBoot) (l1 l2 : List Effect) :
    bootAttemptsFor p (l1 ++ l2) = bootAttemptsFor p l1 + bootAttemptsFor p l2 := by
  simp [bootAttemptsFor]

/-- Hardware-frame filtering distributes over concatenation. -/
lemma hwFrames_append (l1 l2 : List Effect) :
    hwFrames (l1 ++ l2) = hwFrames l1 ++ hwFrames l2 := by
  simp [hwFrames]

/-- Dummy-frame filtering distributes over concatenation. -/
lemma dummyFrames_append (l1 l2 : List Effect) :
    dummyFrames (l1 ++ l2) = dummyFrames l1 ++ dummyFrames l2 := by
  simp [dummyFrames]

/-- The prelude records no boot attempt, no frame of either kind. -/
lemma tickPrelude_counts (env : TickEnv) (s : AdapterState) (p : PendingBoot) :
    bootAttemptsFor p (tickPrelude env s).2 = 0 ∧
    hwFrames (tickPrelude env s).2 = [] ∧
    dummyFrames (tickPrelude env s).2 = [] ∧
    stopCalls (tickPrelude env s).2 =
      (if (UpdateCoreOptions env s).stop_requested then 1 else 0) := by
  obtain ⟨-, -, -, -, -, -, -, -, -, -, h11⟩ := tickPrelude_spec env s
  rw [h11]
  split_ifs <;>
    simp [bootAttemptsFor, hwFrames, dummyFrames, stopCalls, Effect.isHWFrame,
      Effect.isDummyFrame]

/-- The deferred-boot phase records no stop call and no frame. -/
lemma tickBoot_counts (env : TickEnv) (s : AdapterState) :
    stopCalls (tickBoot env s).2 = 0 ∧
    hwFrames (tickBoot env s).2 = [] ∧
    dummyFrames (tickBoot env s).2 = [] := by
  rcases tickBoot_effects_shape env s with h | ⟨p, -, h | h⟩ <;> rw [h] <;>
    simp [stopCalls, hwFrames, dummyFrames, Effect.isHWFrame, Effect.isDummyFrame]

/-- The tail records no stop call and no boot attempt. -/
lemma tickTail_counts (s : AdapterState) (p : PendingBoot) :
    stopCalls (tickTail s).2 = 0 ∧
    bootAttemptsFor p (tickTail s).2 = 0 := by
  rw [tickTail_effects]
  split_ifs <;>
    simp [stopCalls, bootAttemptsFor]

/-- No boot attempt arises outside the deferred-boot phase:
the per-tick count is the deferred-boot phase's count. -/
lemma bootAttempts_retro_run (env : TickEnv) (s : AdapterState) (p : PendingBoot) :
    bootAttemptsFor p (retro_run env s).2 =
      bootAttemptsFor p (tickBoot env (tickPrelude env s).1).2 := by
  rw [retro_run_eq]
  simp only [bootAttemptsFor_append]
  rw [(tickPrelude_counts env s p).1,
    (tickTail_counts (tickBoot env (tickPrelude env s).1).1 p).2]
  omega

/-- A tick whose boot check passes services the pending record exactly
once and clears it. -/
lemma tick_serviced (env : TickEnv) (s : AdapterState) (p : PendingBoot)
    (h : s.pending_boot = some p) (hg : bootEligible env s = true) :
    bootAttemptsFor p (retro_run env s).2 = 1 ∧
      (retro_run env s).1.pending_boot = none := by
  have hp1 : (tickPrelude env s).1.pending_boot = some p := by
    rw [(tickPrelude_spec env s).2.1, h]
  have hg1 : (!(tickPrelude env s).1.game_loaded &&
      (tickPrelude env s).1.hw_context_ready) = true := hg
  refine ⟨?_, ?_⟩
  · rw [bootAttempts_retro_run]
    exact tickBoot_serviced_count env _ p hp1 hg1
  · have hfin : (retro_run env s).1 =
        (tickTail (tickBoot env (tickPrelude env s).1).1).1 := rfl
    rw [hfin, (tickTail_state _).2.2.2.1]
    exact tickBoot_serviced_pending env _ p hp1 hg1

/-- A tick whose boot check fails leaves the pending record untouched
and attempts no boot. -/
lemma tick_blocked (env : TickEnv) (s : AdapterState) (p : PendingBoot)
    (h : s.pending_boot = some p) (hg : bootEligible env s = false) :
    bootAttemptsFor p (retro_run env s).2 = 0 ∧
      (retro_run env s).1.pending_boot = some p := by
  have hp1 : (tickPrelude env s).1.pending_boot = some p := by
    rw [(tickPrelude_spec env s).2.1, h]
  have hg1 : (!(tickPrelude env s).1.game_loaded &&
      (tickPrelude env s).1.hw_context_ready) = false := hg
  have hb := tickBoot_blocked env _ p hp1 hg1
  refine ⟨?_, ?_⟩
  · rw [bootAttempts_retro_run, hb]
    simp [bootAttemptsFor]
  · have hfin : (retro_run env s).1 =
        (tickTail (tickBoot env (tickPrelude env s).1).1).1 := rfl
    rw [hfin, (tickTail_state _).2.2.2.1, hb]
    exact hp1

/-- A tick with no pending record attempts no boot and creates none. -/
lemma tick_no_pending (env : TickEnv) (s : AdapterState)
    (h : s.pending_boot = none) :
    (∀ p, bootAttemptsFor p (retro_run env s).2 = 0) ∧
      (retro_run env s).1.pending_boot = none := by
  have hp1 : (tickPrelude env s).1.pending_boot = none := by
    rw [(tickPrelude_spec env s).2.1, h]
  have hb := tickBoot_none env _ hp1
  refine ⟨?_, ?_⟩
  · intro p
    rw [bootAttempts_retro_run, hb]
    simp [bootAttemptsFor]
  · have hfin : (retro_run env s).1 =
        (tickTail (tickBoot env (tickPrelude env s).1).1).1 := rfl
    rw [hfin, (tickTail_state _).2.2.2.1, hb]
    exact hp1

/-- Unfolding one host step of a run. -/
lemma runHostSteps_cons (s : AdapterState) (step : HostStep) (rest : List HostStep) :
    runHostSteps s (step :: rest) =
      ((runHostSteps (applyHostStep s step).1 rest).1,
        (applyHostStep s step).2 ++ (runHostSteps (applyHostStep s step).1 rest).2) := rfl

/-- A run started with no pending record never attempts a boot and ends
with no pending record (no step of the run issues a `DeferBoot`). -/
lemma run_pending_none : ∀ (steps : List HostStep) (s : AdapterState),
    s.pending_boot = none →
    (runHostSteps s steps).1.pending_boot = none ∧
      ∀ p, bootAttemptsFor p (runHostSteps s steps).2 = 0 := by
  intro steps
  induction steps with
  | nil =>
    intro s h
    exact ⟨h, fun p => rfl⟩
  | cons step rest ih =>
    intro s h
    rw [runHostSteps_cons]
    have hstep : (applyHostStep s step).1.pending_boot = none ∧
        ∀ p, bootAttemptsFor p (applyHostStep s step).2 = 0 := by
      cases step with
      | ctx e => cases e <;> exact ⟨h, fun p => rfl⟩
      | tick env => exact ⟨(tick_no_pending env s h).2, (tick_no_pending env s h).1⟩
      | notifyStop => exact ⟨h, fun p => rfl⟩
      | presentFrame w hh => exact ⟨h, fun p => rfl⟩
    obtain ⟨hrest1, hrest2⟩ := ih (applyHostStep s step).1 hstep.1
    refine ⟨hrest1, fun p => ?_⟩
    rw [bootAttemptsFor_append, hstep.2 p, hrest2 p]

/-- Invariant of a run started with a pending record: either the record
is still pending and was never attempted, or it is gone and was
attempted exactly once. -/
lemma run_pending_invariant : ∀ (steps : List HostStep) (s : AdapterState) (p : PendingBoot),
    s.pending_boot = some p →
    ((runHostSteps s steps).1.pending_boot = some p ∧
      bootAttemptsFor p (runHostSteps s steps).2 = 0) ∨
    ((runHostSteps s steps).1.pending_boot = none ∧
      bootAttemptsFor p (runHostSteps s steps).2 = 1) := by
  intro steps
  induction steps with
  | nil =>
    intro s p h
    left
    exact ⟨h, rfl⟩
  | cons step rest ih =>
    intro s p h
    rw [runHostSteps_cons]
    cases step with
    | tick env =>
      cases hg : bootEligible env s with
      | true =>
        obtain ⟨hc, hpn⟩ := tick_serviced env s p h hg
        obtain ⟨hrest1, hrest2⟩ := run_pending_none rest (retro_run env s).1 hpn
        right
        refine ⟨hrest1, ?_⟩
        rw [bootAttemptsFor_append]
        have hc' : bootAttemptsFor p (applyHostStep s (HostStep.tick env)).2 = 1 := hc
        have hr : bootAttemptsFor p
            (runHostSteps (applyHostStep s (HostStep.tick env)).1 rest).2 = 0 := hrest2 p
        omega
      | false =>
        obtain ⟨hc, hps⟩ := tick_blocked env s p h hg
        have hc' : bootAttemptsFor p (applyHostStep s (HostStep.tick env)).2 = 0 := hc
        rcases ih (applyHostStep s (HostStep.tick env)).1 p hps with ⟨h1, h2⟩ | ⟨h1, h2⟩
        · left
          refine ⟨h1, ?_⟩
          rw [bootAttemptsFor_append]
          omega
        · right
          refine ⟨h1, ?_⟩
          rw [bootAttemptsFor_append]
          omega
    | ctx e =>
      have hp : (applyHostStep s (HostStep.ctx e)).1.pending_boot = some p := by
        cases e <;> exact h
      rcases ih _ p hp with ⟨h1, h2⟩ | ⟨h1, h2⟩
      · left; exact ⟨h1, h2⟩
      · right; exact ⟨h1, h2⟩
    | notifyStop =>
      rcases ih (applyHostStep s HostStep.notifyStop).1 p h with ⟨h1, h2⟩ | ⟨h1, h2⟩
      · left; exact ⟨h1, h2⟩
      · right; exact ⟨h1, h2⟩
    | presentFrame w hh =>
      rcases ih (applyHostStep s (HostStep.presentFrame w hh)).1 p h with
        ⟨h1, h2⟩ | ⟨h1, h2⟩
      · left; exact ⟨h1, h2⟩
      · right; exact ⟨h1, h2⟩

/-- One tick never changes the GL callback descriptor. -/
lemma retro_run_gl (env : TickEnv) (s : AdapterState) :
    (retro_run env s).1.gl_callbacks = s.gl_callbacks := by
  have hfin : (retro_run env s).1 =
      (tickTail (tickBoot env (tickPrelude env s).1).1).1 := rfl
  rw [hfin, (tickTail_state _).2.2.2.2.1, (tickBoot_state env _).2.2.2.2.2.2.2,
    (tickPrelude_spec env s).2.2.2.2.2.2.2.2.1]

/-- A run containing no context-reset notification keeps the empty GL
callback descriptor installed. -/
lemma run_no_reset_keeps_empty : ∀ (steps : List HostStep) (s : AdapterState),
    s.gl_callbacks = LibretroGLCallbacks.empty →
    (∀ st ∈ steps, st.isCtxReset = false) →
    (runHostSteps s steps).1.gl_callbacks = LibretroGLCallbacks.empty := by
  intro steps
  induction steps with
  | nil => intro s h _; exact h
  | cons step rest ih =>
    intro s h hall
    rw [runHostSteps_cons]
    have hstep : (applyHostStep s step).1.gl_callbacks = LibretroGLCallbacks.empty := by
      cases step with
      | ctx e =>
        cases e with
        | reset henv =>
          have := hall _ (List.mem_cons_self _ _)
          simp [HostStep.isCtxReset] at this
        | destroy => rfl
      | tick env => rw [show (applyHostStep s (HostStep.tick env)).1 =
          (retro_run env s).1 from rfl, retro_run_gl]; exact h
      | notifyStop => exact h
      | presentFrame w hh => exact h
    exact ih _ hstep (fun st hst => hall st (List.mem_cons_of_mem _ hst))

/-- The hardware frames a tick submits: exactly the drained pending
present (with the latest stored geometry) when one was pending and a
video callback exists; and the pending-present flag is always clear
afterwards. -/
lemma hwFrames_retro_run (env : TickEnv) (s : AdapterState) :
    hwFrames (retro_run env s).2 =
      (if s.pending_present && s.video_refresh then
        [Effect.videoRefreshHW s.present_width s.present_height] else []) ∧
    (retro_run env s).1.pending_present = false := by
  have hpp : (tickBoot env (tickPrelude env s).1).1.pending_present = s.pending_present := by
    rw [(tickBoot_state env _).2.2.2.2.1, (tickPrelude_spec env s).2.2.2.2.2.1]
  have hvr : (tickBoot env (tickPrelude env s).1).1.video_refresh = s.video_refresh := by
    rw [(tickBoot_state env _).2.2.1, (tickPrelude_spec env s).2.2.2.1]
  have hwd : (tickBoot env (tickPrelude env s).1).1.present_width = s.present_width := by
    rw [(tickBoot_state env _).2.2.2.2.2.1, (tickPrelude_spec env s).2.2.2.2.2.2.1]
  have hht : (tickBoot env (tickPrelude env s).1).1.present_height = s.present_height := by
    rw [(tickBoot_state env _).2.2.2.2.2.2.1, (tickPrelude_spec env s).2.2.2.2.2.2.2.1]
  refine ⟨?_, ?_⟩
  · have heff : (retro_run env s).2 =
        (tickPrelude env s).2 ++ (tickBoot env (tickPrelude env s).1).2 ++
          (tickTail (tickBoot env (tickPrelude env s).1).1).2 := rfl
    rw [heff, hwFrames_append, hwFrames_append,
      (tickPrelude_counts env s ⟨"", none, false⟩).2.1,
      (tickBoot_counts env _).2.1]
    simp only [List.nil_append]
    rw [tickTail_effects, hwFrames_append, hwFrames_append, hpp, hvr, hwd, hht]
    split_ifs <;> simp [hwFrames, Effect.isHWFrame]
  · have hfin : (retro_run env s).1 =
        (tickTail (tickBoot env (tickPrelude env s).1).1).1 := rfl
    rw [hfin, (tickTail_state _).1]

/-! ## Concrete states used by the witnesses -/

/-- A concrete context environment for witnesses. -/
def hwEnvW : HWContextEnv :=
  { get_proc_address := true
    get_current_framebuffer := true
    is_gles := false
    native_display := true
    native_context := true
    native_drawable := true }

/-- A concrete idle adapter state for witnesses: fresh after
`retro_init`, video callback registered, context not yet ready. -/
def stateW : AdapterState :=
  { stop_requested := false
    game_loaded := false
    hw_render_enabled := true
    hw_context_ready := false
    video_refresh := true
    netplay_active := false
    netplay_start_requested := false
    pending_boot := none
    pending_present := false
    present_width := 0
    present_height := 0
    gl_callbacks := LibretroGLCallbacks.empty }

/-- A concrete tick environment for witnesses: no option change, both
boot stages succeed. -/
def tickEnvW : TickEnv :=
  { options_updated := false
    netplay_mode_disabled := false
    boot_params_valid := true
    boot_core_ok := true }

/-- A concrete tick environment whose boot-parameter stage fails. -/
def tickEnvFailW : TickEnv :=
  { tickEnvW with boot_params_valid := false }

/-- A concrete pending boot record for witnesses. -/
def pendingW : PendingBoot :=
  { path := "game.img", session := none, is_netplay := false }

/-- The idle state with a ready context and `pendingW` deferred. -/
def stateBootW : AdapterState :=
  { stateW with hw_context_ready := true, pending_boot := some pendingW }

/-! ## Claims -/

/-- C5: volume scaling is the identity at volume 100 for every 16-bit
sample (and `SoundLoop` skips the pass entirely there); for every volume
the clamped truncating scale stays inside the 16-bit signed range; and
sample 30000 at volume 150 yields the clamped maximum 32767 rather than
a wrapped-around value. -/
theorem volume_scaling_identity_and_clamp :
    (∀ s : Int, -32768 ≤ s → s ≤ 32767 → ApplyVolume s 100 = s) ∧
    (∀ buffer : List Int, soundLoopVolumePass 100 buffer = buffer) ∧
    (∀ s v : Int, -32768 ≤ ApplyVolume s v ∧ ApplyVolume s v ≤ 32767) ∧
    ApplyVolume 30000 150 = 32767 := by
  refine ⟨?_, ?_, ?_, by decide⟩
  · intro s hlo hhi
    have hdiv : Int.tdiv (s * 100) 100 = s := Int.mul_tdiv_cancel s (by norm_num)
    have hdef : ApplyVolume s 100 = max (-32768) (min (Int.tdiv (s * 100) 100) 32767) := rfl
    rw [hdef, hdiv, min_eq_left hhi, max_eq_right hlo]
  · intro buffer
    simp [soundLoopVolumePass]
  · intro s v
    refine ⟨le_max_left _ _, max_le (by norm_num) (min_le_right _ _)⟩

/-- Witness for C5 at concrete inputs. -/
theorem volume_scaling_identity_and_clamp_witness :
    ApplyVolume 1234 100 = 1234 ∧
    (-32768 ≤ ApplyVolume 30000 150 ∧ ApplyVolume 30000 150 ≤ 32767) :=
  ⟨volume_scaling_identity_and_clamp.1 1234 (by norm_num) (by norm_num),
    volume_scaling_identity_and_clamp.2.2.1 30000 150⟩

/-- C10: `retro_serialize` returns false and leaves the destination
untouched whenever no game is loaded, the destination is null, the
freshly saved buffer is empty, or the buffer exceeds the destination
capacity; otherwise it copies the full buffer and returns true. -/
theorem retro_serialize_error_paths :
    (∀ dnn saved size, retro_serialize false dnn saved size = (false, none)) ∧
    (∀ gl saved size, retro_serialize gl false saved size = (false, none)) ∧
    (∀ gl dnn size, retro_serialize gl dnn [] size = (false, none)) ∧
    (∀ gl dnn saved size, size < saved.length →
      retro_serialize gl dnn saved size = (false, none)) ∧
    (∀ (saved : List Nat) size, saved ≠ [] → saved.length ≤ size →
      retro_serialize true true saved size = (true, some saved)) := by
  refine ⟨?_, ?_, ?_, ?_, ?_⟩
  · intro dnn saved size; simp [retro_serialize]
  · intro gl saved size; simp [retro_serialize]
  · intro gl dnn size; cases gl <;> cases dnn <;> simp [retro_serialize]
  · intro gl dnn saved size h
    cases gl <;> cases dnn <;> simp [retro_serialize, h, Nat.not_le.mpr h]
  · intro saved size hne hle
    simp [retro_serialize, hne, Nat.not_lt.mpr hle]

/-- Witness for C10 at concrete inputs. -/
theorem retro_serialize_error_paths_witness :
    retro_serialize true true [7] 0 = (false, none) ∧
    retro_serialize true true [7] 1 = (true, some [7]) :=
  ⟨retro_serialize_error_paths.2.2.2.1 true true [7] 0 (by decide),
    retro_serialize_error_paths.2.2.2.2 [7] 1 (by decide) (by decide)⟩

/-- C3: the pending-boot cell holds at most one record by construction
(`s_pending_boot` is a single `std::optional`); a second `DeferBoot`
before the first is serviced overwrites it, leaving exactly the second
request's path, session and origin tag. -/
theorem pending_boot_last_request_wins :
    ∀ (s : AdapterState) (p1 : String) (e1 : Option Nat) (n1 : Bool)
      (p2 : String) (e2 : Option Nat) (n2 : Bool),
      (DeferBoot p2 e2 n2 (DeferBoot p1 e1 n1 s)).pending_boot =
        some { path := p2, session := e2, is_netplay := n2 } ∧
      (DeferBoot p1 e1 n1 s).pending_boot =
        some { path := p1, session := e1, is_netplay := n1 } := by
  intro s p1 e1 n1 p2 e2 n2
  exact ⟨rfl, rfl⟩

/-- C2: starting from a state where the readiness flag is false, after
any sequence of `OnHWContextReset`/`OnHWContextDestroy` calls the flag
is true exactly when the sequence is non-empty and ends in a reset. -/
theorem readiness_tracks_last_ctx_event :
    ∀ (es : List CtxEvent) (s : AdapterState), s.hw_context_ready = false →
      ((runCtxEvents s es).hw_context_ready = true ↔
        es ≠ [] ∧ ∃ e, es.getLast? = some e ∧ e.isReset = true) := by
  intro es s h
  induction es using List.reverseRecOn with
  | nil => simp [runCtxEvents, h]
  | append_singleton es e ih =>
    rw [runCtxEvents_concat]
    cases e with
    | reset env =>
      simp [applyCtxEvent, OnHWContextReset, List.getLast?_concat, CtxEvent.isReset]
    | destroy =>
      simp [applyCtxEvent, OnHWContextDestroy, List.getLast?_concat, CtxEvent.isReset]

/-- Witness for C2: a destroy followed by a reset, from the idle
state. -/
theorem readiness_tracks_last_ctx_event_witness :
    (runCtxEvents stateW [CtxEvent.destroy, CtxEvent.reset hwEnvW]).hw_context_ready = true ↔
      (([CtxEvent.destroy, CtxEvent.reset hwEnvW] : List CtxEvent) ≠ [] ∧ ∃ e,
        ([CtxEvent.destroy, CtxEvent.reset hwEnvW] : List CtxEvent).getLast? = some e ∧
          e.isReset = true) :=
  readiness_tracks_last_ctx_event [CtxEvent.destroy, CtxEvent.reset hwEnvW] stateW rfl

/-- C1: a deferred boot is serviced exactly once.  On a tick whose boot
check passes (readiness true, no game loaded, evaluated where line 2136
evaluates it) the pending record is attempted exactly once and cleared;
on a tick whose check fails nothing is attempted and the record stays;
and over any host-driven run (ticks, context events, stop and present
notifications) the request is attempted at most once — exactly once
when it is gone at the end, never while it is still pending. -/
theorem deferred_boot_serviced_exactly_once :
    (∀ env s p, s.pending_boot = some p → bootEligible env s = true →
      bootAttemptsFor p (retro_run env s).2 = 1 ∧
        (retro_run env s).1.pending_boot = none) ∧
    (∀ env s p, s.pending_boot = some p → bootEligible env s = false →
      bootAttemptsFor p (retro_run env s).2 = 0 ∧
        (retro_run env s).1.pending_boot = some p) ∧
    (∀ steps s p, s.pending_boot = some p →
      ((runHostSteps s steps).1.pending_boot = some p ∧
        bootAttemptsFor p (runHostSteps s steps).2 = 0) ∨
      ((runHostSteps s steps).1.pending_boot = none ∧
        bootAttemptsFor p (runHostSteps s steps).2 = 1)) :=
  ⟨tick_serviced, tick_blocked, run_pending_invariant⟩

/-- Witness for C1: the deferred record is serviced on an eligible
tick. -/
theorem deferred_boot_serviced_exactly_once_witness :
    bootAttemptsFor pendingW (retro_run tickEnvW stateBootW).2 = 1 ∧
      (retro_run tickEnvW stateBootW).1.pending_boot = none :=
  deferred_boot_serviced_exactly_once.1 tickEnvW stateBootW pendingW rfl rfl

/-- C4: presentation coalesces.  Two `PresentFrame` calls before one
drain produce exactly one hardware-frame submission, carrying the second
call's geometry; the flag is cleared by the drain, and a tick starting
with no pending present submits no hardware frame at all. -/
theorem present_coalesces_to_latest :
    (∀ env s w1 g1 w2 g2, s.video_refresh = true →
      hwFrames (retro_run env (PresentFrame w2 g2 (PresentFrame w1 g1 s))).2 =
        [Effect.videoRefreshHW w2 g2] ∧
      (retro_run env (PresentFrame w2 g2 (PresentFrame w1 g1 s))).1.pending_present = false) ∧
    (∀ env s, s.pending_present = false →
      hwFrames (retro_run env s).2 = [] ∧
      (retro_run env s).1.pending_present = false) := by
  refine ⟨?_, ?_⟩
  · intro env s w1 g1 w2 g2 hvr
    obtain ⟨h1e, h2e⟩ := hwFrames_retro_run env (PresentFrame w2 g2 (PresentFrame w1 g1 s))
    refine ⟨?_, h2e⟩
    rw [h1e]
    simp [PresentFrame, hvr]
  · intro env s hpp
    obtain ⟨h1e, h2e⟩ := hwFrames_retro_run env s
    refine ⟨?_, h2e⟩
    rw [h1e, hpp]
    simp

/-- Witness for C4: geometry 1x2 then 3x4, drained as one 3x4 frame. -/
theorem present_coalesces_to_latest_witness :
    hwFrames (retro_run tickEnvW (PresentFrame 3 4 (PresentFrame 1 2 stateW))).2 =
      [Effect.videoRefreshHW 3 4] ∧
    (retro_run tickEnvW (PresentFrame 3 4 (PresentFrame 1 2 stateW))).1.pending_present =
      false :=
  present_coalesces_to_latest.1 tickEnvW stateW 1 2 3 4 rfl

/-- C6: a raised stop request is observed by the next tick, cleared by
its `exchange(false)` drain, and triggers exactly one `StopCore` call;
with no request raised (also not by the tick's own option processing)
the tick makes no `StopCore` call; raising the flag twice is the same
as raising it once; and `StopCore` is total — defined (and clearing the
running flag) on every state, also with no core running. -/
theorem stop_request_drained_once :
    (∀ env s, s.stop_requested = true →
      stopCalls (retro_run env s).2 = 1 ∧ (retro_run env s).1.stop_requested = false) ∧
    (∀ env s, (UpdateCoreOptions env s).stop_requested = false →
      stopCalls (retro_run env s).2 = 0) ∧
    (∀ s, RequestStop (RequestStop s) = RequestStop s) ∧
    (∀ s, StopCore s = ({ s with game_loaded := false }, [Effect.stopCore])) := by
  have hrun : ∀ env (s : AdapterState), stopCalls (retro_run env s).2 =
      (if (UpdateCoreOptions env s).stop_requested then 1 else 0) := by
    intro env s
    have heff : (retro_run env s).2 =
        (tickPrelude env s).2 ++ (tickBoot env (tickPrelude env s).1).2 ++
          (tickTail (tickBoot env (tickPrelude env s).1).1).2 := rfl
    rw [heff, stopCalls_append, stopCalls_append,
      (tickPrelude_counts env s ⟨"", none, false⟩).2.2.2,
      (tickBoot_counts env _).1,
      (tickTail_counts _ ⟨"", none, false⟩).1]
    omega
  refine ⟨?_, ?_, fun s => rfl, fun s => rfl⟩
  · intro env s h
    have hU : (UpdateCoreOptions env s).stop_requested = true :=
      UpdateCoreOptions_stop_mono env s h
    refine ⟨by rw [hrun env s, hU]; simp, ?_⟩
    have hfin : (retro_run env s).1 =
        (tickTail (tickBoot env (tickPrelude env s).1).1).1 := rfl
    rw [hfin, (tickTail_state _).2.2.1, (tickBoot_state env _).1,
      (tickPrelude_spec env s).1]
  · intro env s h
    rw [hrun env s, h]
    simp

/-- Witness for C6: a raised stop request on the idle state. -/
theorem stop_request_drained_once_witness :
    stopCalls (retro_run tickEnvW (RequestStop stateW)).2 = 1 ∧
      (retro_run tickEnvW (RequestStop stateW)).1.stop_requested = false :=
  stop_request_drained_once.1 tickEnvW (RequestStop stateW) rfl

/-- C7: a failing `BootGameInternal` (invalid parameters or core boot
failure) returns false and leaves the state untouched — in particular
the running flag stays false; a succeeding one sets the running flag
and reapplies the registered cheats; and on a tick that services a
pending boot the record is gone afterwards whatever the outcome, with
the running flag still false after a failure. -/
theorem boot_failure_keeps_prior_state :
    (∀ env path sess np s,
      env.boot_params_valid = false ∨ env.boot_core_ok = false →
      (BootGameInternal env path sess np s).1 = s ∧
        (BootGameInternal env path sess np s).2.1 = false) ∧
    (∀ env path sess np s,
      env.boot_params_valid = true → env.boot_core_ok = true →
      BootGameInternal env path sess np s =
        ({ s with game_loaded := true }, true,
          [Effect.bootAttempt path sess np, Effect.applyCheats])) ∧
    (∀ env s p, s.pending_boot = some p → bootEligible env s = true →
      (retro_run env s).1.pending_boot = none) ∧
    (∀ env s p, s.pending_boot = some p → bootEligible env s = true →
      env.boot_params_valid = false ∨ env.boot_core_ok = false →
      (retro_run env s).1.game_loaded = false) := by
  refine ⟨?_, ?_, ?_, ?_⟩
  · intro env path sess np s hfail
    obtain ⟨h1, h2, -⟩ := BootGameInternal_spec env path sess np s
    have hcond : (env.boot_params_valid && env.boot_core_ok) = false := by
      rcases hfail with hf | hf <;> simp [hf]
    constructor
    · rw [h1, hcond]; simp
    · rw [h2, hcond]
  · intro env path sess np s hp hc
    simp [BootGameInternal, hp, hc]
  · intro env s p h hg
    exact (tick_serviced env s p h hg).2
  · intro env s p h hg hfail
    have hp1 : (tickPrelude env s).1.pending_boot = some p := by
      rw [(tickPrelude_spec env s).2.1, h]
    have hg1 : (!(tickPrelude env s).1.game_loaded &&
        (tickPrelude env s).1.hw_context_ready) = true := hg
    have hcond : (env.boot_params_valid && env.boot_core_ok) = false := by
      rcases hfail with hf | hf <;> simp [hf]
    have hfin : (retro_run env s).1 =
        (tickTail (tickBoot env (tickPrelude env s).1).1).1 := rfl
    rw [hfin, (tickTail_state _).2.1,
      tickBoot_serviced_loaded env _ p hp1 hg1, hcond]

/-- Witness for C7: a failing boot on the idle state. -/
theorem boot_failure_keeps_prior_state_witness :
    (BootGameInternal tickEnvFailW "game.img" none false stateW).1 = stateW ∧
      (BootGameInternal tickEnvFailW "game.img" none false stateW).2.1 = false :=
  boot_failure_keeps_prior_state.1 tickEnvFailW "game.img" none false stateW (Or.inl rfl)

/-- C8: `OnHWContextDestroy` installs the empty capability descriptor,
whose present callback is null; `Swap` with the empty descriptor is a
harmless no-op (the backbuffer query short-circuits and no present call
is made); and the descriptor stays empty over any host-driven run
containing no context-reset notification, so every in-flight `Swap` in
that window is a no-op. -/
theorem swap_noop_after_context_destroy :
    (∀ s, (OnHWContextDestroy s).gl_callbacks = LibretroGLCallbacks.empty) ∧
    LibretroGLCallbacks.empty.present = false ∧
    (∀ vp ctx, Swap LibretroGLCallbacks.empty vp ctx = (ctx, none)) ∧
    (∀ steps s, s.gl_callbacks = LibretroGLCallbacks.empty →
      (∀ st ∈ steps, st.isCtxReset = false) →
      (runHostSteps s steps).1.gl_callbacks = LibretroGLCallbacks.empty ∧
        ∀ vp ctx, Swap (runHostSteps s steps).1.gl_callbacks vp ctx = (ctx, none)) := by
  have hswap : ∀ vp ctx, Swap LibretroGLCallbacks.empty vp ctx = (ctx, none) :=
    fun vp ctx => rfl
  refine ⟨fun s => rfl, rfl, hswap, ?_⟩
  intro steps s h hall
  have hk := run_no_reset_keeps_empty steps s h hall
  exact ⟨hk, fun vp ctx => by rw [hk]; exact hswap vp ctx⟩

/-- Witness for C8: after a destroy, a tick passes and `Swap` still
performs no present call. -/
theorem swap_noop_after_context_destroy_witness :
    (runHostSteps (OnHWContextDestroy stateW) [HostStep.tick tickEnvW]).1.gl_callbacks =
      LibretroGLCallbacks.empty ∧
    Swap (runHostSteps (OnHWContextDestroy stateW)
        [HostStep.tick tickEnvW]).1.gl_callbacks (some (640, 528))
        { backbuffer_width := 0, backbuffer_height := 0 } =
      ({ backbuffer_width := 0, backbuffer_height := 0 }, none) :=
  ⟨(swap_noop_after_context_destroy.2.2.2 [HostStep.tick tickEnvW]
      (OnHWContextDestroy stateW) rfl (by decide)).1,
    (swap_noop_after_context_destroy.2.2.2 [HostStep.tick tickEnvW]
      (OnHWContextDestroy stateW) rfl (by decide)).2 (some (640, 528))
      { backbuffer_width := 0, backbuffer_height := 0 }⟩

/-- C9: on a tick ending with no game loaded, or with hardware
rendering unavailable, `retro_run` submits exactly one minimal 1x1
placeholder frame to the host's registered video sink. -/
theorem dummy_frame_when_not_running :
    ∀ env s, s.video_refresh = true →
      ((retro_run env s).1.game_loaded = false ∨ s.hw_render_enabled = false) →
      dummyFrames (retro_run env s).2 =
        [Effect.videoRefreshDummy kDummyWidth kDummyHeight] ∧
      kDummyWidth = 1 ∧ kDummyHeight = 1 := by
  intro env s hvr hcond
  refine ⟨?_, rfl, rfl⟩
  have hvr' : (tickBoot env (tickPrelude env s).1).1.video_refresh = true := by
    rw [(tickBoot_state env _).2.2.1, (tickPrelude_spec env s).2.2.2.1]
    exact hvr
  have hhw : (tickBoot env (tickPrelude env s).1).1.hw_render_enabled =
      s.hw_render_enabled := by
    rw [(tickBoot_state env _).2.2.2.1, (tickPrelude_spec env s).2.2.2.2.1]
  have hgl : (tickBoot env (tickPrelude env s).1).1.game_loaded =
      (retro_run env s).1.game_loaded := by
    have hfin : (retro_run env s).1 =
        (tickTail (tickBoot env (tickPrelude env s).1).1).1 := rfl
    rw [hfin, (tickTail_state _).2.1]
  have heff : (retro_run env s).2 =
      (tickPrelude env s).2 ++ (tickBoot env (tickPrelude env s).1).2 ++
        (tickTail (tickBoot env (tickPrelude env s).1).1).2 := rfl
  rw [heff, dummyFrames_append, dummyFrames_append,
    (tickPrelude_counts env s ⟨"", none, false⟩).2.2.1,
    (tickBoot_counts env _).2.2]
  simp only [List.nil_append]
  rw [tickTail_effects, dummyFrames_append, dummyFrames_append]
  rcases hcond with hcase | hcase
  · have ht : (tickBoot env (tickPrelude env s).1).1.game_loaded = false := by
      rw [hgl]; exact hcase
    split_ifs <;> simp_all [dummyFrames, Effect.isDummyFrame]
  · have ht : (tickBoot env (tickPrelude env s).1).1.hw_render_enabled = false := by
      rw [hhw]; exact hcase
    split_ifs <;> simp_all [dummyFrames, Effect.isDummyFrame]

/-- Witness for C9: an idle tick submits the placeholder frame. -/
theorem dummy_frame_when_not_running_witness :
    dummyFrames (retro_run tickEnvW stateW).2 =
      [Effect.videoRefreshDummy kDummyWidth kDummyHeight] ∧
    kDummyWidth = 1 ∧ kDummyHeight = 1 :=
  dummy_frame_when_not_running tickEnvW stateW rfl (Or.inl rfl)

end DolphinLibretro
